import Mathlib

/-!
Shallow embedding of the ACME Products MCP service (`mcp-server/main.py`):
a product catalog, accounts, and an order lifecycle (create / amend /
submit / cancel) over a relational store.  SQLite rows become Lean
structures, the four tables become lists inside a `Store`, and each tool
handler becomes a function from a `Store` and its arguments to an
`Except`-style outcome paired with the resulting store.  Python ints are
`Int`, SQL REAL prices are modelled as exact decimal rationals `ℚ`, and an
unhandled Python exception (as opposed to a `ToolError` deliberately raised
by a handler) is modelled as a distinguished `pythonError` outcome.
-/

namespace Acme

/-- Row of the `products` table (`ProductRecord` in `main.py`). -/
structure Product where
  id : Int
  name : String
  description : String
  price : ℚ
  keywords : String
  available : Int
deriving Repr, DecidableEq

/-- Row of the `accounts` table (`AccountRecord` in `main.py`). -/
structure Account where
  id : Int
  name : String
  email : String
  signup_date : String
deriving Repr, DecidableEq

/-- Row of the `order_items` table (`OrderItemRecord` in `main.py`). -/
structure OrderItem where
  id : Int
  order_id : Int
  product_id : Int
  quantity : Int
deriving Repr, DecidableEq

/-- Row of the `orders` table (`OrderRecord` in `main.py`). -/
structure Order where
  id : Int
  account_id : Int
  order_date : String
  status : String
  total_amount : ℚ
deriving Repr, DecidableEq

/-- The SQLite database: the four tables, plus the autoincrement counters
that `cursor.lastrowid` draws new `orders` / `order_items` ids from. -/
structure Store where
  accounts : List Account
  products : List Product
  orders : List Order
  order_items : List OrderItem
  next_order_id : Int
  next_item_id : Int
deriving Repr, DecidableEq

/-- Outcome of a tool call: either a `ToolError` raised deliberately by the
handler (its message is surfaced to the MCP caller), or an unhandled Python
exception (`NameError`, `TypeError`, ...) escaping the handler. -/
inductive Err where
  | toolError (msg : String)
  | pythonError (msg : String)
deriving Repr, DecidableEq

/-- The first row of `SELECT ... FROM accounts WHERE email = ?`. -/
def findAccount (s : Store) (email : String) : Option Account :=
  s.accounts.find? (fun a => a.email = email)

/-- The first row of `SELECT * FROM products WHERE id = ?`. -/
def findProduct (s : Store) (id : Int) : Option Product :=
  s.products.find? (fun p => p.id = id)

/-- The current catalog price of a product id (0 if the id is absent, a
case the handlers never reach on well-formed stores). -/
def currentPrice (s : Store) (pid : Int) : ℚ :=
  ((findProduct s pid).map Product.price).getD 0

/-- Result rows of `SELECT id, price FROM products WHERE id IN (...)`:
each table row whose id occurs in the list, once, in table order. -/
def productsIn (s : Store) (pids : List Int) : List Product :=
  s.products.filter (fun p => pids.contains p.id)

/-- Lookup in the Python dict `{row["id"]: row["price"] for row in rows}`:
built by iterating the rows in order, a later row with the same id
overwrites an earlier one, so the lookup yields the price of the last row
carrying the id (preferring the tail over the head). -/
def dictPrice : List Product → Int → Option ℚ
  | [], _ => none
  | r :: rest, pid =>
    match dictPrice rest pid with
    | some q => some q
    | none => if r.id = pid then some r.price else none

/-- The Python expression `sum(prices[id] for id in product_ids)`;
`none` models the `KeyError` raised when some id is not a dict key. -/
def sumPrices (rows : List Product) : List Int → Option ℚ
  | [] => some 0
  | pid :: rest =>
    match dictPrice rows pid, sumPrices rows rest with
    | some p, some t => some (p + t)
    | _, _ => none

/-- The rows `[(order_id, id, 1) for id in product_ids]` that
`create_order` inserts into `order_items`, with autoincrement item ids
starting at `startId`. -/
def mkItems (startId : Int) (oid : Int) : List Int → List OrderItem
  | [] => []
  | pid :: rest => ⟨startId, oid, pid, 1⟩ :: mkItems (startId + 1) oid rest

/-- The `create_order` tool handler: resolve the caller's account, check
the list length, fetch the listed products, compare fetched count with the
list length, compute the total, insert the order row and one quantity-1
item row per listed id, and return the created `OrderRecord`. -/
def create_order (s : Store) (email : String) (product_ids : List Int)
    (order_date : String) : Except Err Order × Store :=
  match findAccount s email with
  | none => (.error (.toolError "account not registered"), s)
  | some account =>
    if product_ids.isEmpty ∨ product_ids.length > 5 then
      (.error (.toolError
        "invalid products list. Must be an array of 1 to 5 product IDs."), s)
    else
      let product_rows := productsIn s product_ids
      if product_rows.length ≠ product_ids.length then
        let found_ids := product_rows.map Product.id
        let not_found := product_ids.filter (fun pid => ¬ found_ids.contains pid)
        (.error (.toolError ("one or more invalid product ids: " ++
          String.intercalate ", " (not_found.map toString))), s)
      else
        match sumPrices product_rows product_ids with
        | none => (.error (.pythonError "KeyError"), s)
        | some total_amount =>
          let order_id := s.next_order_id
          let order : Order :=
            ⟨order_id, account.id, order_date, "pending", total_amount⟩
          let items := mkItems s.next_item_id order_id product_ids
          (.ok order,
            { s with
              orders := s.orders ++ [order]
              order_items := s.order_items ++ items
              next_order_id := s.next_order_id + 1
              next_item_id := s.next_item_id + product_ids.length })

/-- The row returned by
`SELECT o.* FROM orders o JOIN accounts a ON o.account_id = a.id
WHERE o.id = ? AND a.email = ?` (ownership-scoped order lookup). -/
def findOwnedOrder (s : Store) (email : String) (order_id : Int) :
    Option Order :=
  s.orders.find? (fun o => o.id = order_id ∧
    s.accounts.any (fun a => a.id = o.account_id ∧ a.email = email))

/-- The `amend_order` tool handler exactly as written in `main.py`: after
the ownership and pending-status checks, the body of the amendment was left
as a placeholder comment, and the following
`cursor.execute("UPDATE orders SET total_amount = ...", (total_amount, ...))`
references the name `total_amount`, which is never defined — so every call
that passes both checks raises an unhandled `NameError` before any row is
inserted, updated or committed. -/
def amend_order (s : Store) (email : String) (order_id : Int)
    (product_id : Int) (qty : Int) : Except Err String × Store :=
  match findOwnedOrder s email order_id with
  | none => (.error (.toolError "invalid orderId"), s)
  | some o =>
    if o.status ≠ "pending" then
      (.error (.toolError "cannot amend a finalized order"), s)
    else
      -- the unused arguments mirror the Python signature
      let _ := product_id
      let _ := qty
      (.error (.pythonError "NameError: name total_amount is not defined"), s)

/-- Whether an `orders` row is hit by the `_finalize_order` UPDATE:
`WHERE id = ? AND account_id = (SELECT id FROM accounts WHERE email = ?)`.
The scalar subquery yields the first matching account's id, or NULL
(matching nothing) when the caller has no account. -/
def finalizeHit (s : Store) (email : String) (order_id : Int)
    (o : Order) : Bool :=
  o.id == order_id &&
    (match findAccount s email with
     | some a => o.account_id == a.id
     | none => false)

/-- The `_finalize_order` helper shared by the `submit_order` and
`cancel_order` tools: one conditional UPDATE setting the status wherever
the id and ownership match, failing when zero rows were affected.  No
precondition on the current status is checked. -/
def finalize_order (s : Store) (email : String) (order_id : Int)
    (status : String) : Except Err String × Store :=
  let hits := s.orders.filter (finalizeHit s email order_id)
  if hits.length = 0 then
    (.error (.toolError "invalid orderId"), s)
  else
    (.ok ("order " ++ status ++ " successfully"),
      { s with orders := s.orders.map (fun o =>
          if finalizeHit s email order_id o then
            { o with status := status } else o) })

/-- Strips factors of ten from a natural number: reduces an integer-valued
price to the significand Python prints for it in scientific notation. -/
def stripZeros (n : ℕ) : ℕ :=
  if h : 10 ≤ n ∧ n % 10 = 0 then stripZeros (n / 10) else n
termination_by n
decreasing_by omega

/-- Minimal power of ten clearing a price's denominator, with the
resulting integer: for a finite decimal `q` equal to `n / 10 ^ k` with `k`
minimal, returns `(k, n)`.  The fuel bound 1200 exceeds the decimal length
of every IEEE-754 double — the value space of the Python `float`
parameter — so `none` is never reached on a float-representable price. -/
def decExpAux (fuel : ℕ) (q : ℚ) : Option (ℕ × ℤ) :=
  if q.den = 1 then some (0, q.num)
  else if _h : fuel = 0 then none
  else
    match decExpAux (fuel - 1) (q * 10) with
    | some p => some (p.1 + 1, p.2)
    | none => none
termination_by fuel
decreasing_by omega

/-- Minimal decimal representation of a price (see `decExpAux`). -/
def decRep (q : ℚ) : Option (ℕ × ℤ) := decExpAux 1200 q

/-- The source's decimal-digit test
`"." in str(price) and len(str(price).split(".")[1]) > 2`, modelled on the
exact decimal value of the positive float argument.  Python prints a
positive float positionally when `1e-4 <= price < 1e16`: the dot is then
always present and the test trips exactly when more than two digits follow
it, i.e. when 100 times the price is not an integer.  Outside that range
the float prints in scientific notation `d[.ddd]e±EE`: with a single-digit
significand there is no dot at all and the test never trips (so e.g.
0.00005, printed `5e-05`, is accepted), while a longer significand puts
the exponent suffix among the characters after the dot, so the test always
trips. -/
def pyDecimalReject (price : ℚ) : Bool :=
  if price < 1 / 10000 ∨ 10 ^ 16 ≤ price then
    match decRep price with
    | some kn => decide (¬ (stripZeros kn.2.natAbs ≤ 9))
    | none => true
  else
    decide ((price * 100).den ≠ 1)

/-- The `update_product_price` tool handler.  The Python parameter is a
`float`, modelled as an exact decimal rational; the source's string-based
decimal-digit test on it is modelled by `pyDecimalReject`. -/
def update_product_price (s : Store) (id : Int) (price : ℚ) :
    Except Err Product × Store :=
  if price ≤ 0 then
    (.error (.toolError "Price must be a positive number."), s)
  else if pyDecimalReject price then
    (.error (.toolError "Price can have at most 2 decimal digits."), s)
  else
    let rowcount := (s.products.filter (fun p => p.id = id)).length
    if rowcount = 0 then
      (.error (.toolError ("Product with ID " ++ toString id ++ " not found.")), s)
    else
      let updated := s.products.map (fun p =>
        if p.id = id then { p with price := price } else p)
      match updated.find? (fun p => p.id = id) with
      | some row => (.ok row, { s with products := updated })
      | none =>
        (.error (.pythonError "TypeError: NoneType is not a mapping"),
          { s with products := updated })

/-- The `retrieve_product_details` tool handler exactly as written: it
fetches the row and immediately builds `ProductRecord(**dict(retrieved_row))`
with no guard, so when no row matches, `dict(None)` raises an unhandled
`TypeError` instead of a deliberate not-found `ToolError`. -/
def retrieve_product_details (s : Store) (id : Int) :
    Except Err Product × Store :=
  match findProduct s id with
  | some row => (.ok row, s)
  | none =>
    (.error (.pythonError "TypeError: NoneType object is not a mapping"), s)

/-! Concrete stores used to exercise the handlers. -/

/-- A small concrete store: one registered account, two catalog products,
no orders yet. -/
def storeA : Store :=
  ⟨[⟨1, "Alice", "a@x.com", "2025-01-01"⟩],
   [⟨1, "Widget", "a widget", 10, "widget", 5⟩,
    ⟨2, "Gadget", "a gadget", 5, "gadget", 7⟩],
   [], [], 1, 1⟩

/-- A concrete store holding a submitted (finalized) order owned by the
registered account. -/
def storeSubmitted : Store :=
  ⟨[⟨1, "Alice", "a@x.com", "2025-01-01"⟩],
   [⟨1, "Widget", "a widget", 10, "widget", 5⟩],
   [⟨1, 1, "2025-01-02", "submitted", 10⟩],
   [⟨1, 1, 1, 1⟩], 2, 2⟩

/-- A concrete store holding a pending order owned by the registered
account Alice, plus a pending order owned by a second account Bob. -/
def storePending : Store :=
  ⟨[⟨1, "Alice", "a@x.com", "2025-01-01"⟩,
    ⟨2, "Bob", "b@x.com", "2025-01-01"⟩],
   [⟨1, "Widget", "a widget", 10, "widget", 5⟩,
    ⟨2, "Gadget", "a gadget", 5, "gadget", 7⟩],
   [⟨1, 1, "2025-01-02", "pending", 15⟩,
    ⟨2, 2, "2025-01-03", "pending", 10⟩],
   [⟨1, 1, 1, 1⟩, ⟨2, 1, 2, 1⟩, ⟨3, 2, 1, 1⟩], 3, 4⟩

/-- C6: for a registered caller, `create_order` with an empty product list
or one of more than five ids fails with the invalid-products `ToolError`
and leaves the store unchanged — no order or order-item row is inserted. -/
theorem create_order_bad_length_rejected (s : Store) (email : String)
    (pids : List Int) (date : String)
    (hacct : (findAccount s email).isSome)
    (hlen : pids = [] ∨ pids.length > 5) :
    create_order s email pids date =
      (.error (.toolError
        "invalid products list. Must be an array of 1 to 5 product IDs."), s) := by
  obtain ⟨a, ha⟩ := Option.isSome_iff_exists.mp hacct
  unfold create_order
  rw [ha]
  simp only []
  rw [if_pos]
  rcases hlen with h | h
  · exact Or.inl (by simp [h])
  · exact Or.inr h

/-- Witness for C6: the registered caller of `storeA` with an empty
product list. -/
theorem create_order_bad_length_rejected_witness :
    (findAccount storeA "a@x.com").isSome ∧
    create_order storeA "a@x.com" [] "2025-01-05" =
      (.error (.toolError
        "invalid products list. Must be an array of 1 to 5 product IDs."), storeA) :=
  ⟨by decide,
   create_order_bad_length_rejected storeA "a@x.com" [] "2025-01-05"
     (by decide) (Or.inl rfl)⟩

/-- C7: `amend_order` on an order owned by the caller whose status is not
`pending` fails with the finalized-order `ToolError` and leaves the store —
its items and its total included — unchanged. -/
theorem amend_order_nonpending_rejected (s : Store) (email : String)
    (oid pid qty : Int) (o : Order)
    (hfound : findOwnedOrder s email oid = some o)
    (hstatus : o.status ≠ "pending") :
    amend_order s email oid pid qty =
      (.error (.toolError "cannot amend a finalized order"), s) := by
  unfold amend_order
  rw [hfound]
  simp [hstatus]

/-- Witness for C7: amending the submitted order of `storeSubmitted`. -/
theorem amend_order_nonpending_rejected_witness :
    findOwnedOrder storeSubmitted "a@x.com" 1 =
      some ⟨1, 1, "2025-01-02", "submitted", 10⟩ ∧
    amend_order storeSubmitted "a@x.com" 1 1 3 =
      (.error (.toolError "cannot amend a finalized order"), storeSubmitted) :=
  ⟨rfl,
   amend_order_nonpending_rejected storeSubmitted "a@x.com" 1 1 3
     ⟨1, 1, "2025-01-02", "submitted", 10⟩ rfl (by decide)⟩

/-- C5: when no order row is hit by the ownership-checking UPDATE — the id
does not exist at all, or it exists under another caller's account —
`finalize_order` fails with one and the same invalid-orderId result and
unchanged store, so the two failure cases are indistinguishable to the
caller. -/
theorem finalize_order_not_owned_uniform (s : Store) (email : String)
    (oid : Int) (status : String)
    (h : ∀ o ∈ s.orders, finalizeHit s email oid o = false) :
    finalize_order s email oid status =
      (.error (.toolError "invalid orderId"), s) := by
  unfold finalize_order
  have hnil : s.orders.filter (finalizeHit s email oid) = [] :=
    List.filter_eq_nil_iff.mpr (by intro o ho; simp [h o ho])
  simp [hnil]

/-- Witness for C5: against `storePending` and caller Alice, order id 2
(exists, owned by Bob) and order id 99 (nonexistent) produce the identical
failure. -/
theorem finalize_order_not_owned_uniform_witness :
    (∀ o ∈ storePending.orders, finalizeHit storePending "a@x.com" 2 o = false) ∧
    (∀ o ∈ storePending.orders, finalizeHit storePending "a@x.com" 99 o = false) ∧
    finalize_order storePending "a@x.com" 2 "submitted" =
      (.error (.toolError "invalid orderId"), storePending) ∧
    finalize_order storePending "a@x.com" 99 "submitted" =
      (.error (.toolError "invalid orderId"), storePending) :=
  ⟨by decide, by decide,
   finalize_order_not_owned_uniform storePending "a@x.com" 2 "submitted" (by decide),
   finalize_order_not_owned_uniform storePending "a@x.com" 99 "submitted" (by decide)⟩

/-- C10: `amend_order` as written never succeeds and never changes the
store; every call that passes the ownership check and finds the order
pending raises the unhandled `NameError` from the undefined `total_amount`
before any order-item row is inserted or updated. -/
theorem amend_order_always_fails (s : Store) (email : String)
    (oid pid qty : Int) :
    (amend_order s email oid pid qty).2 = s ∧
    (∀ r, (amend_order s email oid pid qty).1 ≠ .ok r) ∧
    (∀ o, findOwnedOrder s email oid = some o → o.status = "pending" →
      amend_order s email oid pid qty =
        (.error (.pythonError "NameError: name total_amount is not defined"), s)) := by
  unfold amend_order
  cases h : findOwnedOrder s email oid with
  | none =>
    refine ⟨rfl, by simp, ?_⟩
    intro o ho
    exact absurd ho (by simp)
  | some o =>
    by_cases hs : o.status = "pending"
    · refine ⟨by simp [hs], by simp [hs], ?_⟩
      intro o2 ho2 _
      simp [hs]
    · refine ⟨by simp [hs], by simp [hs], ?_⟩
      intro o2 ho2 hp
      cases ho2
      exact absurd hp hs

/-- Witness for C10: amending the pending, owned order 1 of `storePending`
raises the `NameError`. -/
theorem amend_order_always_fails_witness :
    findOwnedOrder storePending "a@x.com" 1 =
      some ⟨1, 1, "2025-01-02", "pending", 15⟩ ∧
    amend_order storePending "a@x.com" 1 1 3 =
      (.error (.pythonError "NameError: name total_amount is not defined"),
       storePending) :=
  ⟨rfl,
   (amend_order_always_fails storePending "a@x.com" 1 1 3).2.2
     ⟨1, 1, "2025-01-02", "pending", 15⟩ rfl rfl⟩

/-- Discriminates the outcome of a tool call that escaped as an unhandled
Python exception (rather than a deliberate `ToolError`). -/
def isUnhandled {α : Type} (r : Except Err α × Store) : Bool :=
  match r.1 with
  | .error (.pythonError _) => true
  | _ => false

/-- C9 (code bug): `retrieve_product_details` on a product id with no
matching row does not fail with a deliberate not-found `ToolError`: it
raises an unhandled Python `TypeError` (from `dict(None)` on the missing
row), an outcome other than "Product or NotFound". -/
theorem retrieve_product_details_missing_raises :
    retrieve_product_details storeA 999 =
      (.error (.pythonError "TypeError: NoneType object is not a mapping"),
       storeA) ∧
    isUnhandled (retrieve_product_details storeA 999) = true :=
  ⟨rfl, rfl⟩

/-- C4 counterexample: `submitted` is not terminal.  Canceling (a finalize
with target status `canceled`) succeeds on an already-submitted order and
overwrites its status, because `_finalize_order` checks no precondition on
the current status. -/
theorem finalize_order_moves_submitted_to_canceled :
    storeSubmitted.orders = [⟨1, 1, "2025-01-02", "submitted", 10⟩] ∧
    finalize_order storeSubmitted "a@x.com" 1 "canceled" =
      (.ok "order canceled successfully",
       { storeSubmitted with orders := [⟨1, 1, "2025-01-02", "canceled", 10⟩] }) :=
  ⟨rfl, rfl⟩

/-- C4 (amended): a finalized order's items really are immutable —
`amend_order` never changes the store and rejects every non-pending owned
order, and `finalize_order` never touches `order_items` — but its status is
not: `finalize_order` enforces no precondition on the current status, so
whenever the ownership WHERE-clause hits any row (finalized or not), a
further submit/cancel overwrites that row's status. -/
theorem finalized_order_mutability (s : Store) (email : String)
    (oid pid qty : Int) (status : String) :
    (amend_order s email oid pid qty).2 = s ∧
    ((finalize_order s email oid status).2).order_items = s.order_items ∧
    (∀ o, findOwnedOrder s email oid = some o → o.status ≠ "pending" →
      (amend_order s email oid pid qty).1 =
        .error (.toolError "cannot amend a finalized order")) ∧
    (∀ o, o ∈ s.orders → finalizeHit s email oid o = true →
      (finalize_order s email oid status).2.orders =
        s.orders.map (fun o2 => if finalizeHit s email oid o2 then
          { o2 with status := status } else o2)) := by
  refine ⟨(amend_order_always_fails s email oid pid qty).1, ?_, ?_, ?_⟩
  · unfold finalize_order
    by_cases h : (s.orders.filter (finalizeHit s email oid)).length = 0 <;>
      simp [h]
  · intro o hfound hstatus
    unfold amend_order
    rw [hfound]
    simp [hstatus]
  · intro o ho hhit
    unfold finalize_order
    have hne : (s.orders.filter (finalizeHit s email oid)).length ≠ 0 := by
      intro h0
      have : s.orders.filter (finalizeHit s email oid) = [] :=
        List.length_eq_zero.mp h0
      have : o ∈ s.orders.filter (finalizeHit s email oid) :=
        List.mem_filter.mpr ⟨ho, hhit⟩
      simp_all
    simp [hne]

/-- Witness for C4 (amended), at the submitted order of `storeSubmitted`:
its item rows survive a cancel, amendment is refused, and yet the cancel
overwrites the status. -/
theorem finalized_order_mutability_witness :
    findOwnedOrder storeSubmitted "a@x.com" 1 =
      some ⟨1, 1, "2025-01-02", "submitted", 10⟩ ∧
    (⟨1, 1, "2025-01-02", "submitted", 10⟩ : Order) ∈ storeSubmitted.orders ∧
    finalizeHit storeSubmitted "a@x.com" 1 ⟨1, 1, "2025-01-02", "submitted", 10⟩ = true ∧
    (amend_order storeSubmitted "a@x.com" 1 1 3).2 = storeSubmitted ∧
    ((finalize_order storeSubmitted "a@x.com" 1 "canceled").2).order_items =
      storeSubmitted.order_items ∧
    (amend_order storeSubmitted "a@x.com" 1 1 3).1 =
      .error (.toolError "cannot amend a finalized order") ∧
    (finalize_order storeSubmitted "a@x.com" 1 "canceled").2.orders =
      storeSubmitted.orders.map (fun o2 =>
        if finalizeHit storeSubmitted "a@x.com" 1 o2 then
          { o2 with status := "canceled" } else o2) :=
  ⟨rfl, by decide, by decide,
   (finalized_order_mutability storeSubmitted "a@x.com" 1 1 3 "canceled").1,
   (finalized_order_mutability storeSubmitted "a@x.com" 1 1 3 "canceled").2.1,
   (finalized_order_mutability storeSubmitted "a@x.com" 1 1 3 "canceled").2.2.1
     ⟨1, 1, "2025-01-02", "submitted", 10⟩ rfl (by decide),
   (finalized_order_mutability storeSubmitted "a@x.com" 1 1 3 "canceled").2.2.2
     ⟨1, 1, "2025-01-02", "submitted", 10⟩ (by decide) (by decide)⟩

/-- After the UPDATE's row rewrite, the first row matching the id is the
first pre-update match with its price replaced. -/
theorem find?_setPrice (l : List Product) (id : Int) (price : ℚ) (p : Product)
    (h : l.find? (fun q => q.id = id) = some p) :
    (l.map (fun q => if q.id = id then { q with price := price } else q)).find?
      (fun q => q.id = id) = some { p with price := price } := by
  induction l with
  | nil => simp at h
  | cons q rest ih =>
    by_cases hq : q.id = id
    · rw [List.find?_cons_of_pos _ (by simp [hq])] at h
      cases h
      simp only [List.map_cons, if_pos hq]
      rw [List.find?_cons_of_pos _ (by simp [hq])]
    · rw [List.find?_cons_of_neg _ (by simp [hq])] at h
      simp only [List.map_cons, if_neg hq]
      rw [List.find?_cons_of_neg _ (by simp [hq])]
      exact ih h

/-- One completed step of `decExpAux`: an integral value stops the
search. -/
theorem decExpAux_done (fuel : ℕ) (q : ℚ) (h1 : q.den = 1) :
    decExpAux fuel q = some (0, q.num) := by
  unfold decExpAux
  rw [if_pos h1]

/-- One recursive step of `decExpAux` on a non-integral value with fuel
left. -/
theorem decExpAux_step (fuel : ℕ) (q : ℚ) (h1 : q.den ≠ 1) (h2 : fuel ≠ 0) :
    decExpAux fuel q =
      match decExpAux (fuel - 1) (q * 10) with
      | some p => some (p.1 + 1, p.2)
      | none => none := by
  conv_lhs => rw [decExpAux]
  rw [if_neg h1, dif_neg h2]

/-- Characterization of `decExpAux`: if `k` is the minimal power of ten
clearing the denominator and there is fuel to reach it, the search finds
exactly `(k, q * 10 ^ k)`. -/
theorem decExpAux_spec (k : ℕ) : ∀ (fuel : ℕ) (q : ℚ), k < fuel →
    (q * 10 ^ k).den = 1 → (∀ i, i < k → (q * 10 ^ i).den ≠ 1) →
    decExpAux fuel q = some (k, (q * 10 ^ k).num) := by
  induction k with
  | zero =>
    intro fuel q hf hint hmin
    have h1 : q.den = 1 := by simpa using hint
    rw [decExpAux_done fuel q h1]
    norm_num
  | succ k ih =>
    intro fuel q hf hint hmin
    have h1 : q.den ≠ 1 := by simpa using hmin 0 (Nat.succ_pos k)
    have h2 : fuel ≠ 0 := by omega
    have hshift : ∀ i : ℕ, q * 10 * 10 ^ i = q * 10 ^ (i + 1) := by
      intro i
      rw [pow_succ]
      ring
    have ih' : decExpAux (fuel - 1) (q * 10) =
        some (k, (q * 10 * 10 ^ k).num) := by
      refine ih (fuel - 1) (q * 10) (by omega) ?_ ?_
      · rw [hshift k]
        exact hint
      · intro i hi
        rw [hshift i]
        exact hmin (i + 1) (by omega)
    rw [decExpAux_step fuel q h1 h2, ih', hshift k]

/-- Characterization of `decRep` at the (float-covering) fuel bound. -/
theorem decRep_eq (q : ℚ) (k : ℕ) (hk : k < 1200)
    (hint : (q * 10 ^ k).den = 1)
    (hmin : ∀ i, i < k → (q * 10 ^ i).den ≠ 1) :
    decRep q = some (k, (q * 10 ^ k).num) :=
  decExpAux_spec k 1200 q hk hint hmin

/-- C8 counterexample: the price 0.00005 (= 1/20000) has more than two
decimal digits — 100 times it is not an integer — yet `update_product_price`
accepts it and updates the catalog row to the sub-cent price: Python
prints the float 0.00005 as `5e-05`, which contains no dot, so the
source's string test never trips. -/
theorem update_product_price_accepts_scientific :
    (((1 : ℚ) / 20000) * 100).den ≠ 1 ∧
    update_product_price storeA 1 ((1 : ℚ) / 20000) =
      (.ok ⟨1, "Widget", "a widget", (1 : ℚ) / 20000, "widget", 5⟩,
       { storeA with products := storeA.products.map (fun q =>
           if q.id = 1 then { q with price := (1 : ℚ) / 20000 } else q) }) := by
  constructor
  · norm_num
  · have hrep : decRep ((1 : ℚ) / 20000) = some (5, ((1 : ℚ) / 20000 * 10 ^ 5).num) :=
      decRep_eq ((1 : ℚ) / 20000) 5 (by norm_num) (by norm_num)
        (by intro i hi; interval_cases i <;> norm_num)
    have hnum : ((1 : ℚ) / 20000 * 10 ^ 5).num = 5 := by norm_num
    have hrej : pyDecimalReject ((1 : ℚ) / 20000) = false := by
      unfold pyDecimalReject
      rw [if_pos (Or.inl (by norm_num)), hrep, hnum]
      simp [stripZeros]
    unfold update_product_price
    rw [if_neg (by norm_num), if_neg (by rw [hrej]; decide)]
    rfl

/-- C8 (amended): `update_product_price` rejects every non-positive price;
in the positional-printing regime (prices from 1e-4 up to but excluding
1e16) it rejects exactly the prices with more than two decimal digits —
9.999 is rejected, 9.99 accepted — but a price printed in scientific
notation with a single-digit significand (such as 0.00005) slips past the
dot-based test; it fails with a not-found `ToolError` when no product row
has the id, and on success returns the matched row updated to the new
price, storing the updated catalog. -/
theorem update_product_price_validation (s : Store) (id : Int) (price : ℚ) :
    (price ≤ 0 → update_product_price s id price =
      (.error (.toolError "Price must be a positive number."), s)) ∧
    (0 < price → 1 / 10000 ≤ price → price < 10 ^ 16 →
      (price * 100).den ≠ 1 → update_product_price s id price =
      (.error (.toolError "Price can have at most 2 decimal digits."), s)) ∧
    pyDecimalReject ((9999 : ℚ) / 1000) = true ∧
    pyDecimalReject ((999 : ℚ) / 100) = false ∧
    (0 < price → pyDecimalReject price = false →
      s.products.find? (fun q => q.id = id) = none →
      update_product_price s id price =
        (.error (.toolError ("Product with ID " ++ toString id ++ " not found.")),
         s)) ∧
    (∀ p, 0 < price → pyDecimalReject price = false →
      s.products.find? (fun q => q.id = id) = some p →
      update_product_price s id price =
        (.ok { p with price := price },
         { s with products := s.products.map (fun q =>
             if q.id = id then { q with price := price } else q) })) := by
  refine ⟨?_, ?_, ?_, ?_, ?_, ?_⟩
  · intro h
    unfold update_product_price
    rw [if_pos h]
  · intro h0 hlo hhi hden
    have hrej : pyDecimalReject price = true := by
      unfold pyDecimalReject
      rw [if_neg (by push_neg; exact ⟨hlo, hhi⟩)]
      exact decide_eq_true hden
    unfold update_product_price
    rw [if_neg (not_le.mpr h0), if_pos hrej]
  · norm_num [pyDecimalReject]
  · norm_num [pyDecimalReject]
  · intro h0 hrej hnone
    have hnil : s.products.filter (fun q => q.id = id) = [] := by
      rw [List.filter_eq_nil_iff]
      intro p hp
      simpa using List.find?_eq_none.mp hnone p hp
    unfold update_product_price
    rw [if_neg (not_le.mpr h0), if_neg (by simp [hrej])]
    simp [hnil]
  · intro p h0 hrej hfind
    have hpred : decide (p.id = id) = true := by
      simpa using List.find?_some hfind
    have hne : (s.products.filter (fun q => q.id = id)).length ≠ 0 := by
      intro h0len
      have h1 : s.products.filter (fun q => q.id = id) = [] :=
        List.length_eq_zero.mp h0len
      have h2 : p ∈ s.products.filter (fun q => q.id = id) :=
        List.mem_filter.mpr ⟨List.mem_of_find?_eq_some hfind, hpred⟩
      simp_all
    unfold update_product_price
    rw [if_neg (not_le.mpr h0), if_neg (by simp [hrej]), if_neg hne]
    simp only [find?_setPrice s.products id price p hfind]

/-- Witness for C8 (amended): against `storeA`, price 0 is rejected and
the accepted price 9.99 lands on product 1. -/
theorem update_product_price_validation_witness :
    update_product_price storeA 1 0 =
      (.error (.toolError "Price must be a positive number."), storeA) ∧
    storeA.products.find? (fun q => q.id = 1) =
      some ⟨1, "Widget", "a widget", 10, "widget", 5⟩ ∧
    update_product_price storeA 1 ((999 : ℚ) / 100) =
      (.ok ⟨1, "Widget", "a widget", (999 : ℚ) / 100, "widget", 5⟩,
       { storeA with products := storeA.products.map (fun q =>
           if q.id = 1 then { q with price := (999 : ℚ) / 100 } else q) }) :=
  ⟨(update_product_price_validation storeA 1 0).1 le_rfl,
   rfl,
   (update_product_price_validation storeA 1 ((999 : ℚ) / 100)).2.2.2.2.2
     ⟨1, "Widget", "a widget", 10, "widget", 5⟩ (by norm_num)
     (by norm_num [pyDecimalReject]) rfl⟩

/-- A `dictPrice` hit comes from a row of the dict's source list carrying
the looked-up id. -/
theorem dictPrice_some_mem (rows : List Product) (pid : Int) (v : ℚ)
    (h : dictPrice rows pid = some v) :
    ∃ r ∈ rows, r.id = pid ∧ r.price = v := by
  induction rows with
  | nil => simp [dictPrice] at h
  | cons q rest ih =>
    unfold dictPrice at h
    cases hrest : dictPrice rest pid with
    | some w =>
      rw [hrest] at h
      cases h
      obtain ⟨r, hr, h1, h2⟩ := ih hrest
      exact ⟨r, List.mem_cons_of_mem q hr, h1, h2⟩
    | none =>
      rw [hrest] at h
      by_cases hq : q.id = pid
      · rw [if_pos hq] at h
        cases h
        exact ⟨q, List.mem_cons_self q rest, hq, rfl⟩
      · rw [if_neg hq] at h
        cases h

/-- When the source rows carry pairwise-distinct ids, `dictPrice` returns
the price of the (unique) row with the looked-up id. -/
theorem dictPrice_eq_some (rows : List Product) (pid : Int) (r : Product)
    (hnd : (rows.map Product.id).Nodup) (hr : r ∈ rows) (hid : r.id = pid) :
    dictPrice rows pid = some r.price := by
  induction rows with
  | nil => cases hr
  | cons q rest ih =>
    simp only [List.map_cons, List.nodup_cons] at hnd
    rcases List.mem_cons.mp hr with rfl | hr_rest
    · have hnone : dictPrice rest pid = none := by
        cases hsome : dictPrice rest pid with
        | none => rfl
        | some v =>
          obtain ⟨r', hr', hid', _⟩ := dictPrice_some_mem rest pid v hsome
          exact absurd (show r.id ∈ rest.map Product.id from
            hid ▸ hid' ▸ List.mem_map_of_mem Product.id hr') hnd.1
      unfold dictPrice
      rw [hnone, if_pos hid]
    · have : dictPrice rest pid = some r.price := ih hnd.2 hr_rest
      unfold dictPrice
      rw [this]

/-- With pairwise-distinct ids, `find?` by id returns exactly the given
member carrying that id. -/
theorem find?_id_eq_some (l : List Product) (pid : Int) (p : Product)
    (hnd : (l.map Product.id).Nodup) (hm : p ∈ l) (hid : p.id = pid) :
    l.find? (fun q => q.id = pid) = some p := by
  induction l with
  | nil => cases hm
  | cons q rest ih =>
    simp only [List.map_cons, List.nodup_cons] at hnd
    rcases List.mem_cons.mp hm with rfl | hm_rest
    · rw [List.find?_cons_of_pos _ (by simp [hid])]
    · have hq : ¬ (q.id = pid) := by
        intro he
        exact hnd.1 (he ▸ hid ▸ List.mem_map_of_mem Product.id hm_rest)
      rw [List.find?_cons_of_neg _ (by simp [hq])]
      exact ih hnd.2 hm_rest

/-- The rows fetched for a product-id list keep pairwise-distinct ids
whenever the catalog has pairwise-distinct ids. -/
theorem nodup_ids_productsIn (s : Store) (pids : List Int)
    (h : (s.products.map Product.id).Nodup) :
    ((productsIn s pids).map Product.id).Nodup :=
  h.sublist ((List.filter_sublist _).map Product.id)

/-- Counting argument behind `create_order`'s unknown-id check: for a
duplicate-free id list fully covered by a catalog with pairwise-distinct
ids, the fetched-row count equals the requested count. -/
theorem length_productsIn (s : Store) (pids : List Int)
    (hp : pids.Nodup) (hs : (s.products.map Product.id).Nodup)
    (hcov : ∀ pid ∈ pids, ∃ p ∈ s.products, p.id = pid) :
    (productsIn s pids).length = pids.length := by
  have hrow_nodup := nodup_ids_productsIn s pids hs
  have hmem : ∀ x, x ∈ (productsIn s pids).map Product.id ↔ x ∈ pids := by
    intro x
    constructor
    · intro hx
      obtain ⟨p, hp_mem, rfl⟩ := List.mem_map.mp hx
      have := (List.mem_filter.mp hp_mem).2
      simpa using this
    · intro hx
      obtain ⟨p, hpm, hpi⟩ := hcov x hx
      exact List.mem_map.mpr
        ⟨p, List.mem_filter.mpr ⟨hpm, by simp [productsIn, hpi, hx]⟩, hpi⟩
  have hfin : ((productsIn s pids).map Product.id).toFinset = pids.toFinset := by
    ext x
    simp only [List.mem_toFinset]
    exact hmem x
  calc (productsIn s pids).length
      = ((productsIn s pids).map Product.id).length := (List.length_map _ _).symm
    _ = ((productsIn s pids).map Product.id).toFinset.card :=
        (List.toFinset_card_of_nodup hrow_nodup).symm
    _ = pids.toFinset.card := by rw [hfin]
    _ = pids.length := List.toFinset_card_of_nodup hp

/-- The price sum the success path of `create_order` computes is the sum
of current catalog prices over the listed ids. -/
theorem sumPrices_productsIn (s : Store) (pids : List Int)
    (hs : (s.products.map Product.id).Nodup) :
    ∀ qids, (∀ q ∈ qids, q ∈ pids ∧ ∃ p ∈ s.products, p.id = q) →
      sumPrices (productsIn s pids) qids =
        some ((qids.map (currentPrice s)).sum) := by
  intro qids hq
  induction qids with
  | nil => simp [sumPrices]
  | cons q rest ih =>
    obtain ⟨hq_pids, p, hpm, hpi⟩ := hq q (List.mem_cons_self q rest)
    have hrow : p ∈ productsIn s pids :=
      List.mem_filter.mpr ⟨hpm, by simp [productsIn, hpi, hq_pids]⟩
    have h1 : dictPrice (productsIn s pids) q = some p.price :=
      dictPrice_eq_some _ _ p (nodup_ids_productsIn s pids hs) hrow hpi
    have h2 : currentPrice s q = p.price := by
      unfold currentPrice findProduct
      rw [find?_id_eq_some s.products q p hs hpm hpi]
      rfl
    have h3 := ih (fun x hx => hq x (List.mem_cons_of_mem q hx))
    unfold sumPrices
    rw [h1, h3]
    simp [h2]

/-- The item rows `create_order` inserts: one quantity-1 row per listed id,
occurrence by occurrence, all attached to the created order. -/
theorem mkItems_map (startId oid : Int) (pids : List Int) :
    (mkItems startId oid pids).map
      (fun it => (it.order_id, it.product_id, it.quantity)) =
      pids.map (fun pid => (oid, pid, 1)) := by
  induction pids generalizing startId with
  | nil => rfl
  | cons pid rest ih => simp [mkItems, ih]

/-- Shared success-path evaluation of `create_order`: with a registered
caller, a duplicate-free list of 1 to 5 ids all present in a catalog with
pairwise-distinct ids, the call returns the created pending order — totalled
at the sum of current catalog prices of the listed ids — and appends the
order row and one quantity-1 item row per listed id to the store. -/
theorem create_order_success_eq (s : Store) (email : String)
    (pids : List Int) (date : String) (a : Account)
    (ha : findAccount s email = some a)
    (hne : pids ≠ []) (hle : pids.length ≤ 5)
    (hnd : pids.Nodup) (hs : (s.products.map Product.id).Nodup)
    (hcov : ∀ pid ∈ pids, ∃ p ∈ s.products, p.id = pid) :
    create_order s email pids date =
      (.ok ⟨s.next_order_id, a.id, date, "pending",
        (pids.map (currentPrice s)).sum⟩,
       { s with
         orders := s.orders ++ [⟨s.next_order_id, a.id, date, "pending",
           (pids.map (currentPrice s)).sum⟩],
         order_items := s.order_items ++
           mkItems s.next_item_id s.next_order_id pids,
         next_order_id := s.next_order_id + 1,
         next_item_id := s.next_item_id + pids.length }) := by
  have hcond : ¬ (pids.isEmpty = true ∨ pids.length > 5) := by
    rintro (h | h)
    · exact hne (List.isEmpty_iff.mp h)
    · omega
  have hlen := length_productsIn s pids hnd hs hcov
  have hsum := sumPrices_productsIn s pids hs pids (fun q hq => ⟨hq, hcov q hq⟩)
  unfold create_order
  rw [ha]
  simp [hcond, hlen, hsum]
  exact ⟨hne, hle⟩

/-- C2 counterexample: the list `[1, 1]` has length 2 (within 1..5) and
every listed id names an existing product of `storeA`, yet `create_order`
fails — the fetched rows are distinct, so their count can never equal the
length of a list with repeats — and the resulting error names no missing
id at all; nothing is stored. -/
theorem create_order_duplicate_rejected :
    (1 ≤ ([1, 1] : List Int).length ∧ ([1, 1] : List Int).length ≤ 5) ∧
    (∀ pid ∈ ([1, 1] : List Int), ∃ p ∈ storeA.products, p.id = pid) ∧
    create_order storeA "a@x.com" [1, 1] "2025-01-05" =
      (.error (.toolError "one or more invalid product ids: "), storeA) :=
  ⟨by decide, by decide, rfl⟩

/-- C2 (amended): with a duplicate-free list of 1 to 5 existing product
ids, over a catalog whose rows carry pairwise-distinct ids, `create_order`
succeeds and attaches one quantity-1 order-item row per listed id to the
created order. -/
theorem create_order_items_per_occurrence (s : Store) (email : String)
    (pids : List Int) (date : String) (a : Account)
    (ha : findAccount s email = some a)
    (hne : pids ≠ []) (hle : pids.length ≤ 5)
    (hnd : pids.Nodup) (hs : (s.products.map Product.id).Nodup)
    (hcov : ∀ pid ∈ pids, ∃ p ∈ s.products, p.id = pid) :
    ∃ total s2,
      create_order s email pids date =
        (.ok ⟨s.next_order_id, a.id, date, "pending", total⟩, s2) ∧
      s2.order_items =
        s.order_items ++ mkItems s.next_item_id s.next_order_id pids ∧
      (mkItems s.next_item_id s.next_order_id pids).map
        (fun it => (it.order_id, it.product_id, it.quantity)) =
        pids.map (fun pid => (s.next_order_id, pid, 1)) :=
  ⟨_, _, create_order_success_eq s email pids date a ha hne hle hnd hs hcov,
   rfl, mkItems_map _ _ _⟩

/-- Witness for C2 (amended): the duplicate-free list `[1, 2]` against
`storeA`. -/
theorem create_order_items_per_occurrence_witness :
    ∃ total s2,
      create_order storeA "a@x.com" [1, 2] "2025-01-05" =
        (.ok ⟨storeA.next_order_id, 1, "2025-01-05", "pending", total⟩, s2) ∧
      s2.order_items = storeA.order_items ++
        mkItems storeA.next_item_id storeA.next_order_id [1, 2] ∧
      (mkItems storeA.next_item_id storeA.next_order_id [1, 2]).map
        (fun it => (it.order_id, it.product_id, it.quantity)) =
        ([1, 2] : List Int).map (fun pid => (storeA.next_order_id, pid, 1)) :=
  create_order_items_per_occurrence storeA "a@x.com" [1, 2] "2025-01-05"
    ⟨1, "Alice", "a@x.com", "2025-01-01"⟩ rfl (by decide) (by decide)
    (by decide) (by decide) (by decide)

/-- C3 counterexample: for the list `[2, 2]` the sum of current catalog
prices counting each occurrence separately is 10, but `create_order`
returns and stores no total at all — it fails on the repeated id — so the
claimed equality fails for valid lists that repeat an id. -/
theorem create_order_duplicate_total_missing :
    (([2, 2] : List Int).map (currentPrice storeA)).sum = 10 ∧
    (∀ pid ∈ ([2, 2] : List Int), ∃ p ∈ storeA.products, p.id = pid) ∧
    create_order storeA "a@x.com" [2, 2] "2025-01-05" =
      (.error (.toolError "one or more invalid product ids: "), storeA) := by
  refine ⟨?_, by decide, rfl⟩
  norm_num [currentPrice, findProduct, storeA, List.find?]

/-- C3 (amended): for a duplicate-free list of 1 to 5 existing product ids
over a catalog with pairwise-distinct ids, the returned and the stored
`total_amount` both equal the sum of the current catalog prices of the
listed ids. -/
theorem create_order_total_eq_catalog_sum (s : Store) (email : String)
    (pids : List Int) (date : String) (a : Account)
    (ha : findAccount s email = some a)
    (hne : pids ≠ []) (hle : pids.length ≤ 5)
    (hnd : pids.Nodup) (hs : (s.products.map Product.id).Nodup)
    (hcov : ∀ pid ∈ pids, ∃ p ∈ s.products, p.id = pid) :
    (create_order s email pids date).1 =
      .ok ⟨s.next_order_id, a.id, date, "pending",
        (pids.map (currentPrice s)).sum⟩ ∧
    ∃ o ∈ (create_order s email pids date).2.orders,
      o.id = s.next_order_id ∧
      o.total_amount = (pids.map (currentPrice s)).sum := by
  rw [create_order_success_eq s email pids date a ha hne hle hnd hs hcov]
  exact ⟨rfl, ⟨s.next_order_id, a.id, date, "pending",
    (pids.map (currentPrice s)).sum⟩, by simp, rfl, rfl⟩

/-- Witness for C3 (amended): the single-id list `[2]` against `storeA`,
with total 5 (the current catalog price of product 2). -/
theorem create_order_total_eq_catalog_sum_witness :
    (create_order storeA "a@x.com" [2] "2025-01-06").1 =
      .ok ⟨storeA.next_order_id, 1, "2025-01-06", "pending",
        (([2] : List Int).map (currentPrice storeA)).sum⟩ ∧
    ∃ o ∈ (create_order storeA "a@x.com" [2] "2025-01-06").2.orders,
      o.id = storeA.next_order_id ∧
      o.total_amount = (([2] : List Int).map (currentPrice storeA)).sum :=
  create_order_total_eq_catalog_sum storeA "a@x.com" [2] "2025-01-06"
    ⟨1, "Alice", "a@x.com", "2025-01-01"⟩ rfl (by decide) (by decide)
    (by decide) (by decide) (by decide)

/-- Modelled from the spec: the upsert-and-recompute body of `AmendOrder`
(spec section 4.3, steps 3 to 6), which `main.py` leaves as an unfinished
placeholder comment inside `amend_order`.  After the ownership and
pending-status checks (taken from the code), a non-positive quantity is
rejected as invalid input; then the order-item row for the (order,
product) pair is updated in place to the given quantity when it exists and
inserted with that quantity otherwise, and the order's `total_amount` is
recomputed as the sum, over all current items of the order, of the item's
product's current catalog price times the item quantity, then stored. -/
def amend_order_model (s : Store) (email : String) (order_id : Int)
    (product_id : Int) (qty : Int) : Except Err String × Store :=
  match findOwnedOrder s email order_id with
  | none => (.error (.toolError "invalid orderId"), s)
  | some o =>
    if o.status ≠ "pending" then
      (.error (.toolError "cannot amend a finalized order"), s)
    else if qty ≤ 0 then
      (.error (.toolError "invalid quantity"), s)
    else
      let exists_row := s.order_items.any
        (fun it => it.order_id == order_id && it.product_id == product_id)
      let items :=
        if exists_row then
          s.order_items.map (fun it =>
            if it.order_id == order_id && it.product_id == product_id then
              { it with quantity := qty } else it)
        else
          s.order_items ++ [⟨s.next_item_id, order_id, product_id, qty⟩]
      let total := ((items.filter (fun it => it.order_id == order_id)).map
        (fun it => currentPrice s it.product_id * (it.quantity : ℚ))).sum
      (.ok "order amended successfully",
        { s with
          order_items := items,
          orders := s.orders.map (fun o2 =>
            if o2.id == order_id then { o2 with total_amount := total } else o2),
          next_item_id :=
            if exists_row then s.next_item_id else s.next_item_id + 1 })

/-- C1: after any successful `amend_order_model` call, every stored order
row carrying the amended order id has a `total_amount` equal to the sum,
over all current order items of that order, of the item's product's
current catalog price times the item quantity — re-priced from the live
catalog of the resulting store, not from prices frozen at creation. -/
theorem amend_order_model_repricing (s : Store) (email : String)
    (oid pid qty : Int) (r : String) (s2 : Store)
    (h : amend_order_model s email oid pid qty = (.ok r, s2)) :
    ∀ o ∈ s2.orders, o.id = oid →
      o.total_amount =
        ((s2.order_items.filter (fun it => it.order_id == oid)).map
          (fun it => currentPrice s2 it.product_id * (it.quantity : ℚ))).sum := by
  unfold amend_order_model at h
  cases hf : findOwnedOrder s email oid with
  | none =>
    rw [hf] at h
    cases h
  | some o0 =>
    rw [hf] at h
    dsimp only at h
    by_cases hs0 : o0.status ≠ "pending"
    · rw [if_pos hs0] at h
      cases h
    · rw [if_neg hs0] at h
      by_cases hq : qty ≤ 0
      · rw [if_pos hq] at h
        cases h
      · rw [if_neg hq] at h
        simp only [Prod.mk.injEq, Except.ok.injEq] at h
        obtain ⟨-, h2⟩ := h
        subst h2
        intro o ho hid
        simp only [List.mem_map] at ho
        obtain ⟨o2, ho2, hfo⟩ := ho
        by_cases hido : o2.id == oid
        · rw [if_pos hido] at hfo
          subst hfo
          rfl
        · rw [if_neg hido] at hfo
          subst hfo
          exact absurd (by simp [hid]) hido

/-- Witness store for the spec's amendment scenario: `storePending` after
`amend_order_model` updates item (order 1, product 1) to quantity 3 and
re-prices order 1 to 3 × 10 + 1 × 5 = 35. -/
def storePendingAmended : Store :=
  ⟨[⟨1, "Alice", "a@x.com", "2025-01-01"⟩,
    ⟨2, "Bob", "b@x.com", "2025-01-01"⟩],
   [⟨1, "Widget", "a widget", 10, "widget", 5⟩,
    ⟨2, "Gadget", "a gadget", 5, "gadget", 7⟩],
   [⟨1, 1, "2025-01-02", "pending", 35⟩,
    ⟨2, 2, "2025-01-03", "pending", 10⟩],
   [⟨1, 1, 1, 3⟩, ⟨2, 1, 2, 1⟩, ⟨3, 2, 1, 1⟩], 3, 4⟩

/-- Witness for C1: amending order 1 of `storePending` (product 1 to
quantity 3) succeeds and leaves the stored total re-priced from the live
catalog. -/
theorem amend_order_model_repricing_witness :
    amend_order_model storePending "a@x.com" 1 1 3 =
      (.ok "order amended successfully", storePendingAmended) ∧
    (∀ o ∈ storePendingAmended.orders, o.id = 1 →
      o.total_amount =
        ((storePendingAmended.order_items.filter
          (fun it => it.order_id == 1)).map
          (fun it => currentPrice storePendingAmended it.product_id *
            (it.quantity : ℚ))).sum) ∧
    ∃ o ∈ storePendingAmended.orders, o.id = 1 ∧ o.total_amount = 35 := by
  have hEval : amend_order_model storePending "a@x.com" 1 1 3 =
      (.ok "order amended successfully", storePendingAmended) := by
    norm_num [amend_order_model, findOwnedOrder, currentPrice, findProduct,
      storePending, storePendingAmended, List.find?]
  refine ⟨hEval,
    amend_order_model_repricing storePending "a@x.com" 1 1 3
      "order amended successfully" storePendingAmended hEval, ?_⟩
  exact ⟨⟨1, 1, "2025-01-02", "pending", 35⟩, by simp [storePendingAmended],
    rfl, rfl⟩

end Acme
